import Mathlib

/-!
Verification of the arm-bend repetition-detection engine of this repository
(`src/script.js`, `src/unnamed/part_000`, `src/unnamed/part_001`).

The detector pipeline (low-pass filter, hysteresis state machine, session
counter, goal/reset handlers) is embedded over `ℚ`: every numeric value the
engine manipulates on the paths studied here is produced by finitely many
field operations on decimal literals, so rationals model the JavaScript
numbers exactly.  The tilt-angle estimator, whose acceleration fallback uses
`Math.atan2`, is embedded separately over `ℝ`.
-/

namespace ArmBends

/-- The motion phase of the detector.  The source stores it as the string
`'neutral' | 'bent'`. -/
inductive Phase where
  | neutral
  | bent
deriving DecidableEq

/-- The mutable session state of the engine, the numeric and phase fields of
the `state` object of `src/unnamed/part_000` (lines 24-40); `script.js` and
`part_001` carry the same engine fields. -/
structure RepState where
  reps : ℤ
  goal : ℤ
  neutralAngleDeg : ℚ
  filteredAngleDeg : ℚ
  prevAngleDeg : ℚ
  thresholdDeg : ℚ
  hysteresisDeg : ℚ
  phase : Phase
  lastPeakTs : ℚ
  minRepMs : ℚ
  running : Bool
deriving DecidableEq

/-- A `RepCompleted` event: in the source a counted rep triggers the
UI/audio side effects (`updateStats`, `colorTiles`, beat sounds) with the new
rep count at the current timestamp. -/
structure RepEvent where
  repIndex : ℤ
  timestampMs : ℚ
deriving DecidableEq

/-- `lowPassFilter(prev, next, alpha)` from `part_000` lines 113-116 (same
body in `script.js` line 521 and `part_001` lines 160-163). -/
def lowPassFilter (prev next alpha : ℚ) : ℚ :=
  prev + alpha * (next - prev)

/-- The smoothing constant `const alpha = 0.12` of all three tick loops. -/
def alpha : ℚ := 12 / 100

/-- `processAngle(angleDeg, timestampMs)` from `part_000` lines 142-161; the
bodies in `script.js` (lines 539-560) and `part_001` (lines 189-208) perform
the same state updates.  Returns the new state together with the
`RepCompleted` event if a rep was counted on this tick.  The source tests
`state.phase === 'neutral'` then `state.phase === 'bent'`; with the two-valued
phase the second test is the `else` branch. -/
def processAngle (s : RepState) (angleDeg timestampMs : ℚ) : RepState × Option RepEvent :=
  let relative := angleDeg - s.neutralAngleDeg
  let absRel := |relative|
  if s.phase = Phase.neutral then
    if absRel ≥ s.thresholdDeg then
      ({ s with phase := Phase.bent }, none)
    else
      (s, none)
  else
    if absRel ≤ s.hysteresisDeg then
      if timestampMs - s.lastPeakTs ≥ s.minRepMs then
        ({ s with reps := min s.goal (s.reps + 1),
                  lastPeakTs := timestampMs,
                  phase := Phase.neutral },
         some { repIndex := min s.goal (s.reps + 1), timestampMs := timestampMs })
      else
        ({ s with phase := Phase.neutral }, none)
    else
      (s, none)

/-- The reset button handler of `part_000` lines 241-247 (and `part_001`
lines 320-326): `reps = 0`, `phase = 'neutral'`, `lastPeakTs = 0`; nothing
else is touched. -/
def resetHandler (s : RepState) : RepState :=
  { s with reps := 0, phase := Phase.neutral, lastPeakTs := 0 }

/-- The `elTarget` change handler of `part_000` lines 258-265: the new goal
is `Math.max(1, Math.min(200, Number(elTarget.value) || 30))`; `reps` is not
touched.  `value` is the parsed numeric input; the JavaScript `|| 30`
replaces a falsy parse (`0` or `NaN`) by 30, modelled by the zero test. -/
def targetChangeHandler (s : RepState) (value : ℤ) : RepState :=
  { s with goal := max 1 (min 200 (if value = 0 then 30 else value)) }

/-- Feeds a list of `(timestampMs, angleDeg)` samples through the detector in
order, collecting the emitted `RepCompleted` events.  Driver for the concrete
scenarios; each step is one `processAngle` call exactly as the tick loop
performs it. -/
def feedSamples (s : RepState) : List (ℚ × ℚ) → RepState × List RepEvent
  | [] => (s, [])
  | (t, a) :: rest =>
    let step := processAngle s a t
    let restRun := feedSamples step.1 rest
    (restRun.1, step.2.toList ++ restRun.2)

/-- The frame loop `tick` of `part_000` lines 181-192 (and `script.js` lines
577-585): everything, including the low-pass filter update, happens inside
`if (state.running)`.  The raw angle returned by `estimateTiltDeg()` on this
tick is passed as the `angle` argument. -/
def tickScript (s : RepState) (angle ts : ℚ) : RepState × Option RepEvent :=
  if s.running then
    let filtered := lowPassFilter s.filteredAngleDeg angle alpha
    let s1 := { s with prevAngleDeg := s.filteredAngleDeg, filteredAngleDeg := filtered }
    processAngle s1 filtered ts
  else
    (s, none)

/-- The frame loop `tick` of `part_001` lines 248-261: the filter update runs
unconditionally every tick; only `processAngle` is guarded by
`if (state.running)`. -/
def tickAlways (s : RepState) (angle ts : ℚ) : RepState × Option RepEvent :=
  let filtered := lowPassFilter s.filteredAngleDeg angle alpha
  let s1 := { s with prevAngleDeg := s.filteredAngleDeg, filteredAngleDeg := filtered }
  if s.running then
    processAngle s1 filtered ts
  else
    (s1, none)

/-- The single-slot orientation cache `latestOrientation = { beta, has }` of
`part_000` line 120.  In this real-number model every stored value is finite,
so the source's `Number.isFinite(latestOrientation.beta)` guard is always
true and is not represented. -/
structure OrientationCache where
  beta : ℝ
  has : Bool

/-- The single-slot acceleration cache `latestAccel = { x, y, z, has }` of
`part_000` line 121. -/
structure AccelCache where
  x : ℝ
  y : ℝ
  z : ℝ
  has : Bool

/-- The pair of sensor caches read by `estimateTiltDeg`. -/
structure Sensors where
  latestOrientation : OrientationCache
  latestAccel : AccelCache

/-- The beta-wrapping of `part_000` lines 126-128: subtract 360 when above
180, then add 360 when below -180. -/
noncomputable def wrapBeta (beta : ℝ) : ℝ :=
  let b1 := if beta > 180 then beta - 360 else beta
  if b1 < -180 then b1 + 360 else b1

/-- `Math.atan2(y, x)` over the reals: the angle of the point `(x, y)` in
`(-pi, pi]`, with `atan2 0 0 = 0`. -/
noncomputable def atan2 (y x : ℝ) : ℝ :=
  if 0 < x then Real.arctan (y / x)
  else if x < 0 then
    (if 0 ≤ y then Real.arctan (y / x) + Real.pi else Real.arctan (y / x) - Real.pi)
  else
    (if 0 < y then Real.pi / 2 else if y < 0 then -(Real.pi / 2) else 0)

/-- `estimateTiltDeg()` from `part_000` lines 123-139 (same body in
`script.js` lines 524-536 and `part_001` lines 170-186): prefer the wrapped
orientation beta; else the gravity fallback `atan2(y, z) * 180 / pi`; else
`0`. -/
noncomputable def estimateTiltDeg (s : Sensors) : ℝ :=
  if s.latestOrientation.has then
    wrapBeta s.latestOrientation.beta
  else if s.latestAccel.has then
    atan2 s.latestAccel.y s.latestAccel.z * (180 / Real.pi)
  else
    0

/-- The calibrate click handler of `part_000` lines 202-219: it collects
exactly 24 samples of `estimateTiltDeg()` (one per element of `reads`, the
sensor-cache contents at each of the 24 reads) and assigns their average
`samples.reduce((a, b) => a + b, 0) / samples.length` to
`state.neutralAngleDeg`, unconditionally.  The returned value is the new
baseline; the handler has no failure path and never reads the old
baseline. -/
noncomputable def calibrateNewBaseline (reads : List Sensors) : ℝ :=
  (reads.map estimateTiltDeg).sum / (reads.map estimateTiltDeg).length

/-- Sensor caches with no reading of either kind (the state before any
`deviceorientation` or `devicemotion` event). -/
def noSignalSensors : Sensors :=
  { latestOrientation := { beta := 0, has := false },
    latestAccel := { x := 0, y := 0, z := 0, has := false } }

/-- Sensor caches holding a genuine orientation reading of 0 degrees. -/
def orientZeroSensors : Sensors :=
  { latestOrientation := { beta := 0, has := true },
    latestAccel := { x := 0, y := 0, z := 0, has := false } }

/-- Sensor caches with no orientation sample and a gravity reading
`(y = 1, z = 1)`. -/
def accelOnlySensors : Sensors :=
  { latestOrientation := { beta := 0, has := false },
    latestAccel := { x := 0, y := 1, z := 1, has := true } }

/-- Sensor caches holding a genuine orientation reading of 45 degrees. -/
def orient45Sensors : Sensors :=
  { latestOrientation := { beta := 45, has := true },
    latestAccel := { x := 0, y := 0, z := 0, has := false } }

/-- The engine state at session start with the default configuration of
`part_000`: goal 30, threshold 30, hysteresis 6, debounce 400 ms, baseline 0,
phase neutral, `lastPeakTs` seeded to 0, session running. -/
def initState : RepState :=
  { reps := 0, goal := 30, neutralAngleDeg := 0, filteredAngleDeg := 0,
    prevAngleDeg := 0, thresholdDeg := 30, hysteresisDeg := 6,
    phase := Phase.neutral, lastPeakTs := 0, minRepMs := 400, running := true }

/-- The sample sequence of the spec's concrete scenario, as
`(timestampMs, angleDeg)` pairs. -/
def scenarioSamples : List (ℚ × ℚ) :=
  [(0, 0), (500, 35), (900, 4), (1000, 32), (1150, 3), (1400, 3)]

/-- A state in phase `bent` with baseline 0, hysteresis 6, debounce 400 ms
and `lastPeakTs = 0`, three reps already counted. -/
def bentState : RepState :=
  { reps := 3, goal := 30, neutralAngleDeg := 0, filteredAngleDeg := 3,
    prevAngleDeg := 0, thresholdDeg := 30, hysteresisDeg := 6,
    phase := Phase.bent, lastPeakTs := 0, minRepMs := 400, running := true }

/-- A paused session (`running = false`) with filter state 0. -/
def pausedState : RepState :=
  { reps := 0, goal := 30, neutralAngleDeg := 0, filteredAngleDeg := 0,
    prevAngleDeg := 0, thresholdDeg := 30, hysteresisDeg := 6,
    phase := Phase.neutral, lastPeakTs := 0, minRepMs := 400, running := false }

/-- The state reached from `initState` by two full bend-and-return cycles
(reps 2) followed by lowering the goal input to 1. -/
def goalLoweredState : RepState :=
  targetChangeHandler
    (processAngle (processAngle (processAngle (processAngle initState 35 0).1 0 500).1 35 600).1 0 1000).1
    1

/-- Helper: the two phase constructors are distinct, in rewrite form. -/
theorem bent_eq_neutral_iff_false : (Phase.bent = Phase.neutral) = False := by
  simp

/-- Helper: the two phase constructors are distinct, symmetric form. -/
theorem neutral_eq_bent_iff_false : (Phase.neutral = Phase.bent) = False := by
  simp

/-- Helper: `processAngle` never changes the smoothed filter state. -/
theorem processAngle_filteredAngleDeg (s : RepState) (a t : ℚ) :
    (processAngle s a t).1.filteredAngleDeg = s.filteredAngleDeg := by
  simp only [processAngle]
  split_ifs <;> rfl

/-- C1 counterexample: in phase `Bent`, with `absRel = 3 <= hysteresisDeg = 6`
and `nowMs - lastPeakTs = 200 < minRepMs = 400`, the tick does NOT leave the
phase at `Bent`: `processAngle` sets the phase back to `Neutral` even though
the debounce suppressed the count, so the transition is dropped, not
deferred. -/
theorem bent_transition_not_deferred :
    bentState.phase = Phase.bent ∧
    |(3 : ℚ) - bentState.neutralAngleDeg| ≤ bentState.hysteresisDeg ∧
    (200 : ℚ) - bentState.lastPeakTs < bentState.minRepMs ∧
    ¬ (processAngle bentState 3 200).1.phase = Phase.bent := by
  norm_num [processAngle, bentState, abs_of_nonneg, bent_eq_neutral_iff_false,
    neutral_eq_bent_iff_false]

/-- C1 (amended): while the phase is `Bent`, a tick with
`absRel <= hysteresisDeg` but `nowMs - lastPeakTs < minRepMs` leaves `reps`
unchanged and emits no event, but moves the phase to `Neutral` (the code
drops the suppressed rep rather than deferring the transition). -/
theorem bent_debounce_drops_rep (s : RepState) (angleDeg nowMs : ℚ)
    (hphase : s.phase = Phase.bent)
    (hhyst : |angleDeg - s.neutralAngleDeg| ≤ s.hysteresisDeg)
    (hdeb : nowMs - s.lastPeakTs < s.minRepMs) :
    (processAngle s angleDeg nowMs).1.phase = Phase.neutral ∧
    (processAngle s angleDeg nowMs).1.reps = s.reps ∧
    (processAngle s angleDeg nowMs).2 = none := by
  simp only [processAngle]
  rw [if_neg (by rw [hphase]; intro h; exact Phase.noConfusion h),
    if_pos hhyst, if_neg (by intro h; exact absurd hdeb (not_lt.mpr h))]
  exact ⟨rfl, rfl, rfl⟩

/-- Witness for C1 at the concrete `bentState` with angle 3 at 200 ms. -/
theorem bent_debounce_drops_rep_witness :
    (processAngle bentState 3 200).1.phase = Phase.neutral ∧
    (processAngle bentState 3 200).1.reps = bentState.reps ∧
    (processAngle bentState 3 200).2 = none :=
  bent_debounce_drops_rep bentState 3 200 rfl (by norm_num [bentState])
    (by norm_num [bentState])

/-- C2 counterexample: feeding the spec's concrete sample sequence to the
detector does not yield 2 reps — at 1150 ms the debounced tick already
returns the phase to `Neutral`, so the 1400 ms tick (angle 3, below the
30-degree threshold) counts nothing. -/
theorem scenario_not_two_reps :
    ¬ (feedSamples initState scenarioSamples).1.reps = 2 := by
  norm_num [feedSamples, scenarioSamples, processAngle, initState, abs_of_nonneg, min_def,
    bent_eq_neutral_iff_false]

/-- C2 (amended): the concrete scenario ends with exactly 1 rep and a single
`RepCompleted` event, `repIndex 1` at 900 ms. -/
theorem scenario_one_rep :
    (feedSamples initState scenarioSamples).1.reps = 1 ∧
    (feedSamples initState scenarioSamples).2 =
      [{ repIndex := 1, timestampMs := 900 }] := by
  norm_num [feedSamples, scenarioSamples, processAngle, initState, abs_of_nonneg, min_def,
    bent_eq_neutral_iff_false]

/-- C3 counterexample: from the initial state, two completed reps followed by
lowering the goal input to 1 leave `reps = 2 > goal = 1`; the goal-change
handler does not clamp `reps`, so the invariant `reps <= goal` is violated at
an observed instant. -/
theorem goal_change_breaks_bound :
    goalLoweredState.reps = 2 ∧
    goalLoweredState.goal = 1 ∧
    ¬ goalLoweredState.reps ≤ goalLoweredState.goal := by
  norm_num [goalLoweredState, targetChangeHandler, processAngle, initState, abs_of_nonneg,
    min_def, bent_eq_neutral_iff_false]

/-- C3 (amended): the bound `0 <= reps <= goal` is preserved by every
detector tick and by `reset` (ticks clamp the increment with
`min(goal, reps + 1)` and never change the goal; reset zeroes `reps`), but
the goal-change handler leaves `reps` untouched, so only these two
operations preserve the invariant. -/
theorem bounds_preserved_by_tick_and_reset (s : RepState) (angleDeg nowMs : ℚ)
    (h0 : 0 ≤ s.reps) (h1 : s.reps ≤ s.goal) :
    (0 ≤ (processAngle s angleDeg nowMs).1.reps ∧
      (processAngle s angleDeg nowMs).1.reps ≤ (processAngle s angleDeg nowMs).1.goal) ∧
    (0 ≤ (resetHandler s).reps ∧ (resetHandler s).reps ≤ (resetHandler s).goal) := by
  simp only [processAngle, resetHandler]
  split_ifs <;> simp <;> omega

/-- Witness for C3 (amended) at `initState` with angle 35 at 0 ms. -/
theorem bounds_preserved_witness :
    (0 ≤ (processAngle initState 35 0).1.reps ∧
      (processAngle initState 35 0).1.reps ≤ (processAngle initState 35 0).1.goal) ∧
    (0 ≤ (resetHandler initState).reps ∧
      (resetHandler initState).reps ≤ (resetHandler initState).goal) :=
  bounds_preserved_by_tick_and_reset initState 35 0 (by norm_num [initState])
    (by norm_num [initState])

/-- C5: the reset handler is idempotent — two applications equal one — and a
single application yields `reps = 0`, `phase = Neutral` while leaving the
goal, the threshold, the hysteresis margin and the calibration baseline of
the argument state unchanged. -/
theorem reset_idempotent (s : RepState) :
    resetHandler (resetHandler s) = resetHandler s ∧
    (resetHandler s).reps = 0 ∧
    (resetHandler s).phase = Phase.neutral ∧
    (resetHandler s).goal = s.goal ∧
    (resetHandler s).thresholdDeg = s.thresholdDeg ∧
    (resetHandler s).hysteresisDeg = s.hysteresisDeg ∧
    (resetHandler s).neutralAngleDeg = s.neutralAngleDeg := by
  unfold resetHandler
  exact ⟨rfl, rfl, rfl, rfl, rfl, rfl, rfl⟩

/-- C9: with `lastPeakTs` still at its session-start seed 0, any tick at a
timestamp `nowMs < minRepMs` while in phase `Bent` leaves `reps` unchanged
and emits no `RepCompleted` event: the first rep is debounced against
session start. -/
theorem first_rep_debounced_from_start (s : RepState) (angleDeg nowMs : ℚ)
    (hphase : s.phase = Phase.bent)
    (hseed : s.lastPeakTs = 0)
    (hts : nowMs < s.minRepMs) :
    (processAngle s angleDeg nowMs).1.reps = s.reps ∧
    (processAngle s angleDeg nowMs).2 = none := by
  simp only [processAngle]
  rw [if_neg (by rw [hphase]; intro h; exact Phase.noConfusion h)]
  split_ifs with h1 h2
  · rw [hseed, sub_zero] at h2
    exact absurd hts (not_lt.mpr h2)
  · exact ⟨rfl, rfl⟩
  · exact ⟨rfl, rfl⟩

/-- Witness for C9: a bend entered at once and returning at 200 ms (< 400 ms
after session start) counts nothing. -/
theorem first_rep_debounced_witness :
    (processAngle (processAngle initState 35 100).1 2 200).1.reps =
      (processAngle initState 35 100).1.reps ∧
    (processAngle (processAngle initState 35 100).1 2 200).2 = none :=
  first_rep_debounced_from_start (processAngle initState 35 100).1 2 200
    (by norm_num [processAngle, initState, abs_of_nonneg])
    (by norm_num [processAngle, initState, abs_of_nonneg])
    (by norm_num [processAngle, initState, abs_of_nonneg])

/-- C10: for `0 < alpha <= 1` the low-pass filter output lies between its two
inputs (inclusive), and the filter fixes any point where the raw angle equals
the previous output. -/
theorem lowPassFilter_between (prev next a : ℚ) (h0 : 0 < a) (h1 : a ≤ 1) :
    min prev next ≤ lowPassFilter prev next a ∧
    lowPassFilter prev next a ≤ max prev next ∧
    lowPassFilter prev prev a = prev := by
  unfold lowPassFilter
  refine ⟨?_, ?_, by ring⟩
  · rcases le_total prev next with h | h
    · rw [min_eq_left h]
      nlinarith
    · rw [min_eq_right h]
      nlinarith
  · rcases le_total prev next with h | h
    · rw [max_eq_right h]
      nlinarith
    · rw [max_eq_left h]
      nlinarith

/-- Witness for C10 at `prev = 0`, `next = 10`, `alpha = 0.12`. -/
theorem lowPassFilter_between_witness :
    min (0 : ℚ) 10 ≤ lowPassFilter 0 10 alpha ∧
    lowPassFilter 0 10 alpha ≤ max (0 : ℚ) 10 ∧
    lowPassFilter 0 0 alpha = 0 :=
  lowPassFilter_between 0 10 alpha (by norm_num [alpha]) (by norm_num [alpha])

/-- C6 counterexample: in the `script.js`/`part_000` tick, a paused session
(`running = false`) skips the filter update entirely — the filter state stays
0 although one filter application with raw angle 10 would give 1.2. -/
theorem filter_skipped_while_paused :
    pausedState.running = false ∧
    (tickScript pausedState 10 0).1.filteredAngleDeg = 0 ∧
    ¬ (tickScript pausedState 10 0).1.filteredAngleDeg =
        lowPassFilter pausedState.filteredAngleDeg 10 alpha := by
  norm_num [tickScript, pausedState, lowPassFilter, alpha]

/-- C6 (amended): only the `part_001` tick applies the filter update exactly
once per tick unconditionally — its new filter state is one `lowPassFilter`
application whether or not the session is running, and pausing does not
change the filter trajectory. -/
theorem filter_unconditional_in_part001 (s : RepState) (angle ts : ℚ) :
    (tickAlways s angle ts).1.filteredAngleDeg =
      lowPassFilter s.filteredAngleDeg angle alpha ∧
    (tickAlways { s with running := false } angle ts).1.filteredAngleDeg =
      (tickAlways { s with running := true } angle ts).1.filteredAngleDeg := by
  simp only [tickAlways]
  constructor
  · split_ifs
    · rw [processAngle_filteredAngleDeg]
    · rfl
  · simp only [Bool.false_eq_true, if_false, if_true]
    rw [processAngle_filteredAngleDeg]

/-- C7 counterexample: `estimateTiltDeg` returns a bare number carrying no
`Unavailable` tag — on the no-signal caches it returns the same value as on
caches holding a genuine 0-degree orientation reading, so the caller cannot
tell the no-signal state apart from a real zero tilt; no tag is surfaced. -/
theorem unavailable_tag_not_surfaced :
    noSignalSensors.latestOrientation.has = false ∧
    noSignalSensors.latestAccel.has = false ∧
    orientZeroSensors.latestOrientation.has = true ∧
    estimateTiltDeg noSignalSensors = estimateTiltDeg orientZeroSensors := by
  refine ⟨rfl, rfl, rfl, ?_⟩
  simp [estimateTiltDeg, noSignalSensors, orientZeroSensors, wrapBeta]
  norm_num

/-- C7 (amended): with no orientation reading and no acceleration reading,
`estimateTiltDeg` returns the constant 0 — it never synthesizes an
oscillating signal — but the value is an untagged number, so no
`Unavailable` marker reaches the caller. -/
theorem no_signal_returns_zero (s : Sensors)
    (h1 : s.latestOrientation.has = false) (h2 : s.latestAccel.has = false) :
    estimateTiltDeg s = 0 := by
  simp [estimateTiltDeg, h1, h2]

/-- Witness for C7 at the concrete empty sensor caches. -/
theorem no_signal_returns_zero_witness : estimateTiltDeg noSignalSensors = 0 :=
  no_signal_returns_zero noSignalSensors rfl rfl

/-- C8 counterexample: the fallback result is not tagged `Acceleration` — on
the acceleration-only caches `(y = 1, z = 1)`, `estimateTiltDeg` returns the
same bare number as on caches holding a genuine 45-degree orientation
reading, so the caller cannot tell which source produced the angle and no
source tag is surfaced. -/
theorem acceleration_tag_not_surfaced :
    accelOnlySensors.latestOrientation.has = false ∧
    accelOnlySensors.latestAccel.has = true ∧
    orient45Sensors.latestOrientation.has = true ∧
    estimateTiltDeg accelOnlySensors = estimateTiltDeg orient45Sensors := by
  refine ⟨rfl, rfl, rfl, ?_⟩
  have h1 : estimateTiltDeg accelOnlySensors = 45 := by
    simp only [estimateTiltDeg, accelOnlySensors]
    norm_num [atan2]
    field_simp
    ring
  have h2 : estimateTiltDeg orient45Sensors = 45 := by
    norm_num [estimateTiltDeg, orient45Sensors, wrapBeta]
  rw [h1, h2]

/-- C8 (amended): with no orientation sample and gravity reading
`(y = 1, z = 1)`, the acceleration fallback returns
`atan2(1, 1) * 180 / pi = 45` degrees — but as a bare untagged number,
indistinguishable from a genuine 45-degree orientation reading; no
`Acceleration` tag is surfaced. -/
theorem accel_fallback_45 :
    estimateTiltDeg accelOnlySensors = 45 ∧
    estimateTiltDeg accelOnlySensors = estimateTiltDeg orient45Sensors := by
  have h1 : estimateTiltDeg accelOnlySensors = 45 := by
    simp only [estimateTiltDeg, accelOnlySensors]
    norm_num [atan2]
    field_simp
    ring
  have h2 : estimateTiltDeg orient45Sensors = 45 := by
    norm_num [estimateTiltDeg, orient45Sensors, wrapBeta]
  exact ⟨h1, by rw [h1, h2]⟩

/-- C4 counterexample: a calibrate click during which no sensor reading of
either kind exists does not fail and does not leave the baseline alone — it
overwrites it with the average of 24 fallback zeros, i.e. the baseline
silently becomes 0 (here: a previous baseline of 10 is replaced by 0). -/
theorem calibrate_overwrites_baseline :
    calibrateNewBaseline (List.replicate 24 noSignalSensors) = 0 ∧
    (10 : ℝ) ≠ calibrateNewBaseline (List.replicate 24 noSignalSensors) := by
  have h : calibrateNewBaseline (List.replicate 24 noSignalSensors) = 0 := by
    simp [calibrateNewBaseline, estimateTiltDeg, noSignalSensors]
  exact ⟨h, by rw [h]; norm_num⟩

/-- C4 (amended): whenever all 24 reads of the calibration window see empty
sensor caches, the handler assigns baseline 0 (the average of 24 zero
samples) unconditionally; there is no failure path and the previous baseline
is not preserved. -/
theorem calibrate_zero_samples_silent_zero (reads : List Sensors)
    (hall : ∀ r ∈ reads, r.latestOrientation.has = false ∧ r.latestAccel.has = false)
    (_hlen : reads.length = 24) :
    calibrateNewBaseline reads = 0 := by
  unfold calibrateNewBaseline
  have hsum : (reads.map estimateTiltDeg).sum = 0 := by
    apply List.sum_eq_zero
    intro x hx
    obtain ⟨r, hr, rfl⟩ := List.mem_map.mp hx
    obtain ⟨h1, h2⟩ := hall r hr
    simp [estimateTiltDeg, h1, h2]
  rw [hsum, zero_div]

/-- Witness for C4 at 24 reads of the empty sensor caches. -/
theorem calibrate_zero_samples_witness :
    calibrateNewBaseline (List.replicate 24 noSignalSensors) = 0 :=
  calibrate_zero_samples_silent_zero (List.replicate 24 noSignalSensors)
    (by
      intro r hr
      rw [List.eq_of_mem_replicate hr]
      exact ⟨rfl, rfl⟩)
    (by simp)

end ArmBends
